import Mathlib

/-!
# Verification of AerialWareQGISIntegration.py

A shallow embedding of `src/AerialWareQGISIntegration.py` (a QGIS plugin
adapter for the AerialWare flight-planning tool), together with proofs of
the specification claims about it.

The script defines a class `DummyWidget` with methods `__init__`, `onStart`,
`importAerialWare`, `onEnd` and `makeLayer`.  Host (QGIS) and toolkit (Qt)
objects are opaque collaborators; we model the script's own control flow,
its file handling, its mutation of `sys.modules`, and the sequences of
host-side calls it performs, as executable Lean functions.

Python-semantics facts used by the embedding (each noted at its use site):
* a name used in a function body is resolved against the module's globals
  at call time; an unbound name raises `NameError`;
* `open(fn, "w")` creates the file if absent and truncates it to empty;
  calling `.readline()` on such a write-only handle raises
  `io.UnsupportedOperation`;
* `importlib.util.spec_from_file_location` on a `*.py` location and
  `importlib.util.module_from_spec` both succeed even when the file is
  absent; only `spec.loader.exec_module` can fail for a bad path.
-/

namespace AerialWare

/-- Names bound at module level of `AerialWareQGISIntegration.py`
(lines 20-27, 194): the two `from ... import ...` lists, `from os import
path`, `import importlib.util` (binds `importlib`), `import sys`, plus the
class and the trailing `w = DummyWidget()`.  Note that `QgsPoint` and
`QgsFields` are NOT in this list. -/
def moduleGlobals : List String :=
  ["QApplication", "QWidget", "QInputDialog", "QMessageBox",
   "QSize", "QVariant",
   "QgsMapLayerType", "QgsVectorLayer", "QgsFeature", "QgsGeometry",
   "QgsProject", "QgsField",
   "path", "importlib", "sys", "DummyWidget", "w"]

/-- A hypothetical globals list in which the two missing names do resolve;
used to exhibit what the converter code would compute were the imports
present. -/
def fixedGlobals : List String := moduleGlobals ++ ["QgsPoint", "QgsFields"]

/-- Uncaught Python exceptions the embedded code can raise. -/
inductive PyErr where
  | nameError (n : String)
  | indexError
deriving DecidableEq

/-- A path segment as returned by the AerialWare getters: a line with two
endpoints (`QLineF.p1()` / `QLineF.p2()`).  The coordinate type is opaque. -/
structure Segment (α : Type) where
  p1 : α
  p2 : α
deriving DecidableEq

/-- A `QgsPoint` after `addMValue(height)`: a coordinate plus the auxiliary
measure value attached to it. -/
structure MPoint (α : Type) where
  coord : α
  m : ℚ
deriving DecidableEq

/-- The six attribute names defined in `makeLayer` (lines 153-160), in
source order. -/
def attrNames : List String :=
  ["max_area_to_capture_height", "max_area_to_capture_width",
   "meters_in_pixel_ratio", "resolution_height", "resolution_width",
   "camera_focal_length"]

/-- One host-side (QGIS API) call performed by `makeLayer`, with the data
relevant to the claims. -/
inductive HostCall where
  | setGeometry (numPoints : Nat)
  | setFieldsOnFeature (attrs : List String)
  | setAttribute (field : String)
  | createVectorLayer (layerName : String)
  | startEditing
  | addAttributesOnProvider (attrs : List String)
  | updateFields
  | addFeatures (count : Nat)
  | commitChanges
  | updateExtents
  | addMapLayer (layerName : String)
deriving DecidableEq

/-- The data of one successfully built output layer. -/
structure MLResult (α : Type) where
  /-- the polyline's points, with measure values, in order -/
  points : List (MPoint α)
  layerName : String
  /-- how many features were added to the layer -/
  featureCount : Nat
deriving DecidableEq

/-- Embedding of `DummyWidget.makeLayer(self, lines, name)` (lines 132-192).
`globals` is the module's global-name environment (name resolution happens
at call time); `height` is `self.aw.getFlightHeight()`.  Returns the list
of host-side calls performed before returning or raising, and either the
built layer or the uncaught exception.

Statement-by-statement correspondence:
* line 138 `p = QgsPoint(lines[0].p1())`: CPython loads the global
  `QgsPoint` before evaluating the arguments, so an unbound `QgsPoint`
  raises `NameError` even on an empty list; otherwise an empty `lines`
  raises `IndexError` from `lines[0]`;
* lines 139-146 build the point list: the first line's `p1` then every
  line's `p2`, each with the measure value `height`;
* lines 149-150 `QgsFeature()` / `setGeometry(fromPolyline(points))`;
* line 163 `fields = QgsFields()`: `QgsFields` is resolved here;
* lines 163-176 `setFields` on the feature then the six `setAttribute`s;
* lines 179-192 layer creation, `startEditing`, `addAttributes`,
  `updateFields`, `addFeatures([feature])`, `commitChanges`,
  `updateExtents`, `addMapLayer`. -/
def makeLayer {α : Type} (globals : List String) (height : ℚ)
    (lines : List (Segment α)) (name : String) :
    List HostCall × Except PyErr (MLResult α) :=
  if "QgsPoint" ∈ globals then
    match lines with
    | [] => ([], .error .indexError)
    | l0 :: _ =>
      let points : List (MPoint α) :=
        ⟨l0.p1, height⟩ :: lines.map (fun l => ⟨l.p2, height⟩)
      let t1 : List HostCall := [.setGeometry points.length]
      if "QgsFields" ∈ globals then
        (t1 ++ [.setFieldsOnFeature attrNames]
            ++ attrNames.map .setAttribute
            ++ [.createVectorLayer name, .startEditing,
                .addAttributesOnProvider attrNames, .updateFields,
                .addFeatures 1, .commitChanges, .updateExtents,
                .addMapLayer name],
         .ok ⟨points, name, 1⟩)
      else (t1, .error (.nameError "QgsFields"))
  else ([], .error (.nameError "QgsPoint"))

/-- Embedding of `DummyWidget.onEnd` (lines 123-130): calls `makeLayer` on
the meridian path with name `"Meridians"`, then on the horizontal path with
name `"Horizontals"`.  An exception in either call propagates (there is no
handler), so later layers are not built.  Returns the list of layers added
to the project (a layer is added by `addMapLayer`, the last statement of
`makeLayer`, hence exactly when `makeLayer` returns normally) and the
uncaught exception, if any. -/
def onEnd {α : Type} (globals : List String) (height : ℚ)
    (meridians horizontals : List (Segment α)) :
    List (MLResult α) × Option PyErr :=
  match (makeLayer globals height meridians "Meridians").2 with
  | .error e => ([], some e)
  | .ok r1 =>
    match (makeLayer globals height horizontals "Horizontals").2 with
    | .error e => ([r1], some e)
    | .ok r2 => ([r1, r2], none)

/-- A Python module object, as far as the claims need it: whether
`exec_module` ran it to completion.  A module created by
`module_from_spec` starts unexecuted. -/
structure Module where
  executed : Bool
deriving DecidableEq

/-- Embedding of `DummyWidget.importAerialWare(self, pathToAerialWare)`
(lines 109-121).  `importOk p` says whether `exec_module` succeeds for the
module file under directory `p`; `reg` is the current
`sys.modules["AerialWare"]` entry (`none` if absent).  Returns the boolean
result and the new registry entry.

Step order, as in the source:
1. `spec_from_file_location("AerialWare", normpath(p + "/AerialWare.py"))`
   returns a spec for any string path (the location ends in `.py`);
2. `module_from_spec(spec)` returns a fresh, unexecuted module object;
3. `sys.modules["AerialWare"] = awModule` overwrites the registry;
4. `spec.loader.exec_module(awModule)` runs the module; on failure the
   `except` clause returns `False` without touching the registry, so the
   fresh unexecuted module object stays registered. -/
def importAerialWare (importOk : String → Bool) (_reg : Option Module)
    (p : String) : Bool × Option Module :=
  let awModule : Module := ⟨false⟩
  let reg1 : Option Module := some awModule
  if importOk p then (true, some ⟨true⟩) else (false, reg1)

/-- The state `onStart` reads and writes: the contents of the memory file
`AerialWarePath.txt` in the working directory (`none` = file absent) and
the `sys.modules["AerialWare"]` registry entry. -/
structure StartState where
  memFile : Option String
  registry : Option Module
deriving DecidableEq

/-- Embedding of the `while True` prompt loop of `onStart` (lines 93-105),
together with the `file.write(path); file.close()` that follows a `break`.
`prompts` is the sequence of the user's answers to the "Path to AerialWare"
dialog, `none` meaning the Cancel button.  Returns `none` if the supplied
answer list runs out before the loop terminates (the real loop would keep
prompting); otherwise `some (result, state, promptCount)` where
`promptCount` counts the dialogs shown.

The memory-file handle was opened with mode `"w"` and already truncated to
empty, so the `file.write(path)` after the loop leaves the file holding
exactly `path`. -/
def promptLoop (importOk : String → Bool) :
    List (Option String) → StartState → Nat →
      Option (Bool × StartState × Nat)
  | [], _, _ => none
  | none :: _, s, n => some (false, s, n + 1)
  | some p :: rest, s, n =>
    let r := importAerialWare importOk s.registry p
    let s1 : StartState := { s with registry := r.2 }
    if r.1 then some (true, { s1 with memFile := some p }, n + 1)
    else promptLoop importOk rest s1 (n + 1)

/-- Embedding of `DummyWidget.onStart(self)` (lines 70-107).  `defaultOk`
says whether `from AerialWare import AerialWare` (line 78) succeeds;
`importOk` and `prompts` are as in `importAerialWare` and `promptLoop`.

Control flow, as in the source:
* if the default import succeeds, return `True` at once (no file touched);
* line 83 `file = open("AerialWarePath.txt", "w")`: mode `"w"` CREATES OR
  TRUNCATES the file, so its contents become the empty string;
* line 86 `file.readline()` on the write-only handle raises
  `io.UnsupportedOperation` before `importAerialWare` is even called; the
  bare `except` swallows it, so `imported` stays `False` and the registry
  is untouched by this step;
* the dead `if imported` branch is kept verbatim;
* otherwise the prompt loop runs. -/
def onStart (defaultOk : Bool) (importOk : String → Bool)
    (prompts : List (Option String)) (s : StartState) :
    Option (Bool × StartState × Nat) :=
  if defaultOk then some (true, s, 0)
  else
    let s1 : StartState := { s with memFile := some "" }
    let imported := false
    if imported then some (true, s1, 0)
    else promptLoop importOk prompts s1 0

/-- The kind of a map layer as tested by `__init__` (line 47): QGIS raster
layers versus everything else (`QgsMapLayerType.RasterLayer` is the only
value compared against). -/
inductive LayerKind where
  | raster
  | vector
deriving DecidableEq

/-- A QGIS map layer as far as this script reads it: its project id (the
key in `project.mapLayers()`), its display name and its kind. -/
structure MapLayer where
  id : String
  name : String
  kind : LayerKind
deriving DecidableEq

/-- Embedding of the parse loop of `__init__` (lines 44-50): iterate over
`project.mapLayers()` in order, skip non-raster layers, append each raster
layer's name to `layersList` and set `layersDict[name] = layer` (a Python
dict assignment, so a later layer with the same name overwrites an earlier
one).  The dict is modelled as a lookup function. -/
def layersStep (acc : List String × (String → Option MapLayer))
    (layer : MapLayer) : List String × (String → Option MapLayer) :=
  if layer.kind = .raster then
    (acc.1 ++ [layer.name],
     fun k => if k = layer.name then some layer else acc.2 k)
  else acc

def buildLists (layers : List MapLayer) :
    List String × (String → Option MapLayer) :=
  layers.foldl layersStep ([], fun _ => none)

/-- The names of the raster layers of a project, in project-iteration
order. -/
def rasterNames (layers : List MapLayer) : List String :=
  (layers.filter (fun l => l.kind == .raster)).map (fun l => l.name)

/-- The layer a lookup in `layersDict` yields: the LAST raster layer in
iteration order whose name is the key (later dict assignments overwrite
earlier ones). -/
def findLayer (layers : List MapLayer) (k : String) : Option MapLayer :=
  layers.reverse.find? (fun x => x.kind == .raster && x.name == k)

/-- A user-visible step of `__init__`, in the order performed. -/
inductive InitEv where
  /-- the "No raster layer opened" critical `QMessageBox` (lines 36-42) -/
  | criticalMsg
  /-- `self.onStart()` is invoked (line 53): the import machinery runs,
  possibly including its own dialogs -/
  | importStart
  /-- the "Select layer" `QInputDialog.getItem` is shown with the given
  item list (line 58) -/
  | selectDialog (items : List String)
  /-- `layersDict[name[0]]` raises `KeyError` (line 60) -/
  | keyErr (name : String)
  /-- the AerialWare widget is constructed, fed the preview image of the
  layer with this id, and shown (lines 63-68) -/
  | adapterShow (layerId : String)
deriving DecidableEq

/-- Embedding of `DummyWidget.__init__` (lines 30-68) as the sequence of
user-visible steps it performs.  `startOk` is the result of
`self.onStart()`; `selection` is the outcome of the "Select layer" dialog
(`none` = cancelled, `some nm` = the accepted text, which the dialog
returns as `(nm, True)`).

Control flow, as in the source:
* line 36 tests `len(layers) == 0` — the count of ALL layers, not of
  raster layers — and shows the critical message and returns if it is 0;
* lines 44-50 build `layersList` / `layersDict` from the raster layers;
* line 53: if `onStart` returns `False`, `deleteLater` and return;
* lines 58-60: show the selection dialog; on cancel return; otherwise
  look the accepted name up in `layersDict`;
* lines 63-68: hand the chosen layer's preview image to AerialWare. -/
def initEvents (layers : List MapLayer) (startOk : Bool)
    (selection : Option String) : List InitEv :=
  if layers.isEmpty then [.criticalMsg]
  else
    let ld := buildLists layers
    if startOk then
      match selection with
      | none => [.importStart, .selectDialog ld.1]
      | some nm =>
        match ld.2 nm with
        | none => [.importStart, .selectDialog ld.1, .keyErr nm]
        | some layer =>
          [.importStart, .selectDialog ld.1, .adapterShow layer.id]
    else [.importStart]

example :
    (makeLayer fixedGlobals (5 : ℚ) [⟨(0 : ℤ), 1⟩] "Meridians").2
      = .ok ⟨[⟨0, 5⟩, ⟨1, 5⟩], "Meridians", 1⟩ := by rfl

example :
    onStart false (fun p => p == "/aw") [some "/bad", some "/aw"]
        ⟨none, none⟩
      = some (true, ⟨some "/aw", some ⟨true⟩⟩, 2) := by rfl

example :
    initEvents [⟨"r1", "A", .raster⟩, ⟨"v1", "B", .vector⟩] true (some "A")
      = [.importStart, .selectDialog ["A"], .adapterShow "r1"] := by rfl

theorem foldl_layersStep_fst (ls : List MapLayer)
    (acc : List String × (String → Option MapLayer)) :
    (List.foldl layersStep acc ls).1 = acc.1 ++ rasterNames ls := by
  induction ls generalizing acc with
  | nil => simp [rasterNames]
  | cons x ls ih =>
    rw [List.foldl_cons, ih]
    by_cases hx : x.kind = .raster
    · simp [layersStep, rasterNames, List.filter_cons, hx]
    · simp [layersStep, rasterNames, List.filter_cons, hx]

theorem buildLists_fst (ls : List MapLayer) :
    (buildLists ls).1 = rasterNames ls := by
  simpa using foldl_layersStep_fst ls ([], fun _ => none)

theorem findLayer_cons (x : MapLayer) (ls : List MapLayer) (k : String) :
    findLayer (x :: ls) k =
      (findLayer ls k).or
        ([x].find? (fun y => y.kind == .raster && y.name == k)) := by
  simp only [findLayer, List.reverse_cons, List.find?_append]

theorem foldl_layersStep_snd (ls : List MapLayer)
    (acc : List String × (String → Option MapLayer)) (k : String) :
    (List.foldl layersStep acc ls).2 k = (findLayer ls k).or (acc.2 k) := by
  induction ls generalizing acc with
  | nil => simp [findLayer]
  | cons x ls ih =>
    rw [List.foldl_cons, ih, findLayer_cons, Option.or_assoc]
    have hstep : (layersStep acc x).2 k =
        ([x].find? (fun y => y.kind == .raster && y.name == k)).or
          (acc.2 k) := by
      by_cases hx : x.kind = .raster
      · by_cases hk : k = x.name
        · simp [layersStep, List.find?_cons, hx, hk]
        · have hk2 : ¬ x.name = k := fun h => hk h.symm
          simp [layersStep, List.find?_cons, hx, hk, hk2]
      · simp [layersStep, List.find?_cons, hx]
    rw [hstep]

theorem buildLists_snd (ls : List MapLayer) (k : String) :
    (buildLists ls).2 k = findLayer ls k := by
  simpa using foldl_layersStep_snd ls ([], fun _ => none) k

theorem findLayer_eq_self (layers : List MapLayer) (l : MapLayer)
    (hl : l ∈ layers) (hr : l.kind = .raster)
    (hnd : (rasterNames layers).Nodup) :
    findLayer layers l.name = some l := by
  have hp : (fun x : MapLayer => x.kind == .raster && x.name == l.name) l
      = true := by
    simp [hr]
  have hmem : l ∈ layers.reverse := List.mem_reverse.mpr hl
  have hsome : (layers.reverse.find?
      (fun x => x.kind == .raster && x.name == l.name)).isSome := by
    rw [List.find?_isSome]
    exact ⟨l, hmem, hp⟩
  obtain ⟨x, hx⟩ := Option.isSome_iff_exists.mp hsome
  have hpx := List.find?_some hx
  have hxmem : x ∈ layers := List.mem_reverse.mp (List.mem_of_find?_eq_some hx)
  simp only [Bool.and_eq_true, beq_iff_eq] at hpx
  have hxl : x = l := by
    have hmem1 : x ∈ layers.filter (fun y => y.kind == .raster) :=
      List.mem_filter.mpr ⟨hxmem, by simp [hpx.1]⟩
    have hmem2 : l ∈ layers.filter (fun y => y.kind == .raster) :=
      List.mem_filter.mpr ⟨hl, by simp [hr]⟩
    exact List.inj_on_of_nodup_map hnd hmem1 hmem2 hpx.2
  rw [findLayer, hx, hxl]

/-- C1: every invocation of `makeLayer` raises `NameError` on the unbound
name `QgsPoint` (line 138) before performing any host-side call or
constructing any geometry, because `QgsPoint` (and `QgsFields`) are never
imported at module level; consequently `onEnd` never adds an output vector
layer to the project. -/
theorem claim1_makeLayer_nameError {α : Type} (height : ℚ)
    (lines : List (Segment α)) (name : String)
    (meridians horizontals : List (Segment α)) :
    makeLayer moduleGlobals height lines name
      = ([], .error (.nameError "QgsPoint")) ∧
    onEnd moduleGlobals height meridians horizontals
      = ([], some (.nameError "QgsPoint")) := by
  have hq : ¬ ("QgsPoint" ∈ moduleGlobals) := by decide
  have hm : ∀ (ls : List (Segment α)) (nm : String),
      makeLayer moduleGlobals height ls nm
        = ([], .error (.nameError "QgsPoint")) := by
    intro ls nm
    rw [makeLayer.eq_def, if_neg hq]
  refine ⟨hm lines name, ?_⟩
  rw [onEnd.eq_def, hm meridians "Meridians"]

/-- C2: the claim that `makeLayer` produces `m + 1` points, each carrying
the flight height as measure value, fails on the code as written: with the
actual module globals, `makeLayer` raises `NameError` instead of producing
any geometry.  The second conjunct shows the same call with `QgsPoint` and
`QgsFields` bound (the evident intent of the code) does yield `m + 1 = 3`
points for `m = 2` segments, each with measure value `5`. -/
theorem claim2_converter_points_blocked :
    makeLayer moduleGlobals (5 : ℚ)
        [(⟨0, 1⟩ : Segment ℤ), ⟨1, 2⟩] "Meridians"
      = ([], .error (.nameError "QgsPoint")) ∧
    (makeLayer fixedGlobals (5 : ℚ)
        [(⟨0, 1⟩ : Segment ℤ), ⟨1, 2⟩] "Meridians").2
      = .ok ⟨[⟨0, 5⟩, ⟨1, 5⟩, ⟨2, 5⟩], "Meridians", 1⟩ :=
  ⟨rfl, rfl⟩

/-- C3: the claim that a valid remembered path makes `onStart` succeed
without prompting fails on the code: line 83 opens `AerialWarePath.txt`
with mode `"w"`, which truncates it, and `readline` on the write-only
handle raises, so the remembered path `"/aw"` is never used and the prompt
dialog is shown (here once, `1 ≠ 0`), even though the path is valid and
the user then supplies it by hand. -/
theorem claim3_memory_path_ignored :
    onStart false (fun p => p == "/aw") [some "/aw"] ⟨some "/aw", none⟩
      = some (true, ⟨some "/aw", some ⟨true⟩⟩, 1) ∧ (1 : Nat) ≠ 0 :=
  ⟨rfl, by decide⟩

/-- C4: the claim that cancelling the path prompt leaves the memory file's
contents unchanged fails on the code: with prior contents `"/old"`, after
a cancelled run `onStart` returns `False` (so no layer is created and no
`write` call occurs) but the file holds `""` — it was truncated by the
`open(..., "w")` call. -/
theorem claim4_cancel_still_truncates :
    onStart false (fun _ => false) [none] ⟨some "/old", none⟩
      = some (false, ⟨some "", none⟩, 1) ∧
    (some "" : Option String) ≠ some "/old" :=
  ⟨rfl, by decide⟩

/-- C5: the claim that a project with zero raster layers shows exactly one
critical error dialog and stops fails on the code: line 36 tests
`len(layers) == 0` over ALL layers, so a project holding one vector layer
and no raster layer skips the error dialog entirely and proceeds (here to
the import step, and — were the import to succeed — to a selection dialog
listing no items). -/
theorem claim5_no_raster_check_misses :
    initEvents [⟨"v1", "Vec", .vector⟩] false none = [.importStart] ∧
    InitEv.criticalMsg ∉ initEvents [⟨"v1", "Vec", .vector⟩] false none ∧
    initEvents [⟨"v1", "Vec", .vector⟩] true none
      = [.importStart, .selectDialog []] :=
  ⟨rfl, by decide, rfl⟩

/-- C6: if the default-location import fails and the user supplies a path
for which the module loads at the first prompt, `onStart` returns `True`
and the memory file afterwards contains exactly that path (whatever it
held before, including nothing: the `"w"`-mode open truncated it and the
single `write` put the path at offset 0). -/
theorem claim6_first_prompt_success (importOk : String → Bool) (p : String)
    (rest : List (Option String)) (s : StartState)
    (hp : importOk p = true) :
    onStart false importOk (some p :: rest) s
      = some (true, ⟨some p, some ⟨true⟩⟩, 1) := by
  simp [onStart, promptLoop, importAerialWare, hp]

theorem claim6_first_prompt_success_witness :
    (fun _ : String => true) "/aw" = true ∧
    onStart false (fun _ : String => true) [some "/aw"] ⟨none, none⟩
      = some (true, ⟨some "/aw", some ⟨true⟩⟩, 1) :=
  ⟨rfl, claim6_first_prompt_success (fun _ => true) "/aw" [] ⟨none, none⟩ rfl⟩

/-- C7: when the project's raster-layer names are distinct (the spec's
data model: "name (string, unique within project)") and `l` is a raster
layer of the project, `__init__` shows the selection dialog with exactly
the raster layers' names (in project order, non-raster layers excluded),
and selecting `l`'s name hands exactly layer `l`'s preview image to the
AerialWare adapter. -/
theorem claim7_selection_binds_layer (layers : List MapLayer)
    (l : MapLayer) (hl : l ∈ layers) (hr : l.kind = .raster)
    (hnd : (rasterNames layers).Nodup) :
    initEvents layers true (some l.name)
      = [.importStart, .selectDialog (rasterNames layers),
         .adapterShow l.id] := by
  have hne : layers.isEmpty = false := by
    cases layers with
    | nil => cases hl
    | cons a as => rfl
  have hfind : (buildLists layers).2 l.name = some l := by
    rw [buildLists_snd]
    exact findLayer_eq_self layers l hl hr hnd
  simp [initEvents, hne, hfind, buildLists_fst]

theorem claim7_selection_binds_layer_witness :
    (⟨"r1", "A", .raster⟩ : MapLayer)
        ∈ [(⟨"r1", "A", .raster⟩ : MapLayer), ⟨"r2", "B", .raster⟩,
           ⟨"v1", "C", .vector⟩] ∧
    (rasterNames [⟨"r1", "A", .raster⟩, ⟨"r2", "B", .raster⟩,
        ⟨"v1", "C", .vector⟩]).Nodup ∧
    initEvents [⟨"r1", "A", .raster⟩, ⟨"r2", "B", .raster⟩,
        ⟨"v1", "C", .vector⟩] true (some "A")
      = [.importStart, .selectDialog ["A", "B"], .adapterShow "r1"] :=
  ⟨by decide, by decide,
   claim7_selection_binds_layer
     [⟨"r1", "A", .raster⟩, ⟨"r2", "B", .raster⟩, ⟨"v1", "C", .vector⟩]
     ⟨"r1", "A", .raster⟩ (by decide) rfl (by decide)⟩

/-- C8: the claim that each run of `onEnd` adds two one-feature layers
named "Meridians" and "Horizontals" fails on the code: the first
`makeLayer` call raises `NameError` on `QgsPoint`, the exception
propagates out of `onEnd`, and zero layers are added to the project. -/
theorem claim8_onEnd_adds_no_layers :
    onEnd moduleGlobals (5 : ℚ) [(⟨0, 1⟩ : Segment ℤ)] [⟨2, 3⟩]
      = ([], some (.nameError "QgsPoint")) :=
  rfl

/-- C9: the claim that the host-side calls of `makeLayer` occur in the
stated order on every run fails on the code: on an actual run no
host-side call occurs at all (`NameError` on `QgsPoint` is raised first,
empty trace).  The second conjunct shows that with `QgsPoint` and
`QgsFields` bound, the calls would indeed occur in exactly the claimed
order: schema on the feature and the same attributes on the provider
before `addFeatures`, then `commitChanges`, then `updateExtents`, then
`addMapLayer`. -/
theorem claim9_call_order_unreached :
    (makeLayer moduleGlobals (5 : ℚ) [(⟨0, 1⟩ : Segment ℤ)] "Meridians").1
      = [] ∧
    (makeLayer fixedGlobals (5 : ℚ) [(⟨0, 1⟩ : Segment ℤ)] "Meridians").1
      = [.setGeometry 2, .setFieldsOnFeature attrNames,
         .setAttribute "max_area_to_capture_height",
         .setAttribute "max_area_to_capture_width",
         .setAttribute "meters_in_pixel_ratio",
         .setAttribute "resolution_height",
         .setAttribute "resolution_width",
         .setAttribute "camera_focal_length",
         .createVectorLayer "Meridians", .startEditing,
         .addAttributesOnProvider attrNames, .updateFields,
         .addFeatures 1, .commitChanges, .updateExtents,
         .addMapLayer "Meridians"] :=
  ⟨rfl, rfl⟩

/-- C10: whenever `importAerialWare` returns `False`, the registry entry
`sys.modules["AerialWare"]` has nevertheless been overwritten with the
fresh, not fully executed module object — the assignment (line 118)
precedes `exec_module` (line 119) and the `except` clause does no cleanup,
whatever entry (or none) was registered before. -/
theorem claim10_registry_overwritten_on_failure (importOk : String → Bool)
    (reg : Option Module) (p : String)
    (hfail : (importAerialWare importOk reg p).1 = false) :
    (importAerialWare importOk reg p).2 = some ⟨false⟩ := by
  by_cases h : importOk p = true
  · rw [importAerialWare] at hfail
    simp [h] at hfail
  · simp only [Bool.not_eq_true] at h
    rw [importAerialWare]
    simp [h]

theorem claim10_registry_overwritten_on_failure_witness :
    (importAerialWare (fun _ : String => false) none "/x").1 = false ∧
    (importAerialWare (fun _ : String => false) none "/x").2
      = some ⟨false⟩ :=
  ⟨rfl, claim10_registry_overwritten_on_failure (fun _ => false) none "/x" rfl⟩

end AerialWare
